import Mathlib

/-
Shallow embedding of internal/templates/templates.go from
cluster-api-provider-tinkerbell.

The Go source defines two value objects, `WorkflowTemplate` (six string
fields) and `HardwareProvisionTasks` (one boolean field), each with a
`Render` method that substitutes the fields into a fixed text/template
constant.  The templates only contain simple field actions of the form
`\x7b\x7b.Field\x7d\x7d`, so the relevant fragment of Go text/template is
modelled here: a body is parsed into literal-text and field nodes, and
execution looks the fields up by name and splices them verbatim.  A
`WorkflowTemplate.Render` on a pointer receiver mutates the receiver when
it default-fills `DeviceTemplateName`; this is modelled by returning the
updated structure alongside the (output, error) pair.
-/

namespace Templates

set_option maxRecDepth 40000

/-- A parsed node of a template body: literal text, or a field action. -/
inductive TemplateNode where
  | text : String → TemplateNode
  | field : String → TemplateNode
deriving DecidableEq, Repr

/-- The opening action-delimiter character of Go text/template. -/
def lbraceChar : Char := Char.ofNat 123

/-- The closing action-delimiter character of Go text/template. -/
def rbraceChar : Char := Char.ofNat 125

def dotChar : Char := Char.ofNat 46

def quoteChar : Char := Char.ofNat 34

def underscoreChar : Char := Char.ofNat 95

/-- Characters allowed in a field identifier of an action. -/
def isIdentChar (c : Char) : Bool := c.isAlphanum || c == underscoreChar

/-- Scan text up to the first action delimiter; return the text seen so
far (the accumulator is reversed) and, when a delimiter was found, the
remainder after it. -/
def findActionAux : List Char → List Char → List Char × Option (List Char)
  | acc, [] => (acc.reverse, none)
  | acc, [c] => ((c :: acc).reverse, none)
  | acc, c :: c2 :: rest =>
    if c == lbraceChar && c2 == lbraceChar then (acc.reverse, some rest)
    else findActionAux (c :: acc) (c2 :: rest)

def findAction (cs : List Char) : List Char × Option (List Char) :=
  findActionAux [] cs

/-- Take the longest identifier prefix of a character list, returning it
together with the remainder. -/
def spanIdent : List Char → List Char × List Char
  | [] => ([], [])
  | c :: rest =>
    if isIdentChar c then
      let p := spanIdent rest
      (c :: p.1, p.2)
    else ([], c :: rest)

/-- Parse a template body into nodes.  Every action must be a simple
field reference; any other action shape is a parse error (`none`).  The
first argument is fuel bounding the recursion; an action consumes at
least six characters of input while fuel shrinks by one element, so the
input itself plus one spare element is always enough fuel. -/
def parseNodes : List Char → List Char → Option (List TemplateNode)
  | [], _ => none
  | _ :: fuel, cs =>
    match findAction cs with
    | (txt, none) => some [TemplateNode.text (String.mk txt)]
    | (txt, some rest) =>
      match rest with
      | [] => none
      | c :: rest2 =>
        if c == dotChar then
          let p := spanIdent rest2
          match p.2 with
          | c1 :: c2 :: rest3 =>
            if c1 == rbraceChar && c2 == rbraceChar && !p.1.isEmpty then
              (parseNodes fuel rest3).map
                (fun ns => TemplateNode.text (String.mk txt) :: TemplateNode.field (String.mk p.1) :: ns)
            else none
          | _ => none
        else none

def parseTemplate (s : String) : Option (List TemplateNode) :=
  parseNodes (underscoreChar :: s.data) s.data

/-- Execute parsed nodes against a field-lookup function; referencing an
unknown field is an execution error. -/
def executeNodes (lookup : String → Option String) : List TemplateNode → Option String
  | [] => some ""
  | TemplateNode.text s :: rest => (executeNodes lookup rest).map (fun t => s ++ t)
  | TemplateNode.field f :: rest =>
    match lookup f with
    | none => none
    | some v => (executeNodes lookup rest).map (fun t => v ++ t)

/-- Errors surfaced by the two Render methods: the two validation
sentinels `ErrMissingName` and `ErrMissingImageURL`, and the wrapped
template parse / execute faults. -/
inductive RenderError where
  | missingName
  | missingImageURL
  | unableToParse
  | unableToExecute
deriving DecidableEq, Repr

/-- WorkflowTemplate is a helper struct for rendering CAPT Template data. -/
structure WorkflowTemplate where
  Name : String
  MetadataURL : String
  ImageURL : String
  DestDisk : String
  DestPartition : String
  DeviceTemplateName : String
deriving DecidableEq, Repr

/-- Field lookup on a WorkflowTemplate, as Go text/template reflection
resolves `\x7b\x7b.Field\x7d\x7d` against the struct. -/
def WorkflowTemplate.lookup (wt : WorkflowTemplate) (f : String) : Option String :=
  if f = "Name" then some wt.Name
  else if f = "MetadataURL" then some wt.MetadataURL
  else if f = "ImageURL" then some wt.ImageURL
  else if f = "DestDisk" then some wt.DestDisk
  else if f = "DestPartition" then some wt.DestPartition
  else if f = "DeviceTemplateName" then some wt.DeviceTemplateName
  else none

def workflowTemplate : String :=
  "\n" ++
  "version: \"0.1\"\n" ++
  "name: \x7b\x7b.Name\x7d\x7d\n" ++
  "global_timeout: 6000\n" ++
  "tasks:\n" ++
  "  - name: \"\x7b\x7b.Name\x7d\x7d\"\n" ++
  "    worker: \"\x7b\x7b.DeviceTemplateName\x7d\x7d\"\n" ++
  "    volumes:\n" ++
  "      - /dev:/dev\n" ++
  "      - /dev/console:/dev/console\n" ++
  "      - /lib/firmware:/lib/firmware:ro\n" ++
  "    actions:\n" ++
  "      - name: \"stream-image\"\n" ++
  "        image: quay.io/tinkerbell-actions/image2disk:v1.0.0\n" ++
  "        timeout: 600\n" ++
  "        environment:\n" ++
  "          IMG_URL: \x7b\x7b.ImageURL\x7d\x7d\n" ++
  "          DEST_DISK: \x7b\x7b.DestDisk\x7d\x7d\n" ++
  "          COMPRESSED: true\n" ++
  "      - name: \"create-user\"\n" ++
  "        image: quay.io/tinkerbell-actions/cexec:v1.0.0\n" ++
  "        timeout: 90\n" ++
  "        environment:\n" ++
  "          BLOCK_DEVICE: \x7b\x7b.DestPartition\x7d\x7d\n" ++
  "          FS_TYPE: ext4\n" ++
  "          CHROOT: y\n" ++
  "          DEFAULT_INTERPRETER: \"/bin/sh -c\"\n" ++
  "          CMD_LINE: \"useradd -p $(openssl passwd -1 tink) -s /bin/bash -d /home/tink/ -m -G sudo tink\"\n" ++
  "      - name: \"create-init-script\"\n" ++
  "        image: quay.io/tinkerbell-actions/writefile:v1.0.0\n" ++
  "        timeout: 90\n" ++
  "        environment:\n" ++
  "            DEST_DISK: \x7b\x7b.DestPartition\x7d\x7d\n" ++
  "            FS_TYPE: ext4\n" ++
  "            DEST_PATH: /root/cluster-setup.sh\n" ++
  "            UID: 0\n" ++
  "            GID: 0\n" ++
  "            MODE: 0700\n" ++
  "            DIRMODE: 0700\n" ++
  "            CONTENTS: |\n" ++
  "              #!/bin/bash\n" ++
  "              tdnf install -y apparmor-parser apparmor-utils\n" ++
  "              iptables -I INPUT -p tcp --dport 6443 -j ACCEPT\n" ++
  "              rm /root/cluster-setup.sh\n" ++
  "      - name: \"create-init-script-service\"\n" ++
  "        image: quay.io/tinkerbell-actions/writefile:v1.0.0\n" ++
  "        timeout: 90\n" ++
  "        environment:\n" ++
  "            DEST_DISK: \x7b\x7b.DestPartition\x7d\x7d\n" ++
  "            FS_TYPE: ext4\n" ++
  "            DEST_PATH: /usr/local/lib/systemd/system/cluster-setup.service\n" ++
  "            UID: 0\n" ++
  "            GID: 0\n" ++
  "            MODE: 0600\n" ++
  "            DIRMODE: 0600\n" ++
  "            CONTENTS: |\n" ++
  "              [Unit]\n" ++
  "              Before=systemd-user-sessions.service\n" ++
  "              Wants=network-online.target\n" ++
  "              After=network-online.target\n" ++
  "              ConditionPathExists=/root/cluster-setup.sh\n" ++
  "              [Service]\n" ++
  "              Type=oneshot\n" ++
  "              ExecStart=/root/cluster-setup.sh\n" ++
  "              RemainAfterExit=yes\n" ++
  "              [Install]\n" ++
  "              WantedBy=multi-user.target\n" ++
  "      - name: \"enable-init-script\"\n" ++
  "        image: quay.io/tinkerbell-actions/cexec:v1.0.0\n" ++
  "        timeout: 90\n" ++
  "        environment:\n" ++
  "            BLOCK_DEVICE: \x7b\x7b.DestPartition\x7d\x7d\n" ++
  "            FS_TYPE: ext4\n" ++
  "            CHROOT: y\n" ++
  "            DEFAULT_INTERPRETER: \"/bin/sh -c\"\n" ++
  "            CMD_LINE: \"systemctl enable cluster-setup.service\"\n" ++
  "      - name: \"add-tink-cloud-init-config\"\n" ++
  "        image: quay.io/tinkerbell-actions/writefile:v1.0.0\n" ++
  "        timeout: 90\n" ++
  "        environment:\n" ++
  "          DEST_DISK: \x7b\x7b.DestPartition\x7d\x7d\n" ++
  "          FS_TYPE: ext4\n" ++
  "          DEST_PATH: /etc/cloud/cloud.cfg.d/10_tinkerbell.cfg\n" ++
  "          UID: 0\n" ++
  "          GID: 0\n" ++
  "          MODE: 0600\n" ++
  "          DIRMODE: 0700\n" ++
  "          CONTENTS: |\n" ++
  "            datasource:\n" ++
  "              Ec2:\n" ++
  "                metadata_urls: [\"\x7b\x7b.MetadataURL\x7d\x7d\"]\n" ++
  "                strict_id: false\n" ++
  "            system_info:\n" ++
  "              default_user:\n" ++
  "                name: tink\n" ++
  "                groups: [wheel, adm]\n" ++
  "                sudo: [\"ALL=(ALL) NOPASSWD:ALL\"]\n" ++
  "                shell: /bin/bash\n" ++
  "            manage_etc_hosts: localhost\n" ++
  "            warnings:\n" ++
  "              dsid_missing_source: off\n" ++
  "      - name: \"add-tink-cloud-init-ds-config\"\n" ++
  "        image: quay.io/tinkerbell-actions/writefile:v1.0.0\n" ++
  "        timeout: 90\n" ++
  "        environment:\n" ++
  "          DEST_DISK: \x7b\x7b.DestPartition\x7d\x7d\n" ++
  "          FS_TYPE: ext4\n" ++
  "          DEST_PATH: /etc/cloud/ds-identify.cfg\n" ++
  "          UID: 0\n" ++
  "          GID: 0\n" ++
  "          MODE: 0600\n" ++
  "          DIRMODE: 0700\n" ++
  "          CONTENTS: |\n" ++
  "            datasource: Ec2\n" ++
  "      - name: \"kexec-image\"\n" ++
  "        image: quay.io/tinkerbell-actions/kexec:v1.0.0\n" ++
  "        timeout: 90\n" ++
  "        pid: host\n" ++
  "        environment:\n" ++
  "          BLOCK_DEVICE: \x7b\x7b.DestPartition\x7d\x7d\n" ++
  "          FS_TYPE: ext4\n" ++
  "          KERNEL_PATH: /boot/vmlinuz-5.15.86.1-1.cm2\n" ++
  "          INITRD_PATH: /boot/initrd.img-5.15.86.1-1.cm2\n" ++
  "          CMD_LINE: \"root=\x7b\x7b.DestPartition\x7d\x7d rw\"\n"

def hardwareProvisionTasks : String :=
  "\n" ++
  "- powerAction: \"off\"\n" ++
  "- oneTimeBootDeviceAction:\n" ++
  "    device:\n" ++
  "    - pxe\n" ++
  "    efiBoot: \x7b\x7b.EFIBoot\x7d\x7d\n" ++
  "- powerAction: \"on\"\n"

/-- Render renders workflow template for a given machine including
user-data.  The Go method takes a pointer receiver and may mutate
`DeviceTemplateName`; the updated receiver is returned alongside the
(output, error) pair. -/
def WorkflowTemplate.Render (wt : WorkflowTemplate) :
    WorkflowTemplate × String × Option RenderError :=
  if wt.Name = "" then (wt, "", some RenderError.missingName)
  else if wt.ImageURL = "" then (wt, "", some RenderError.missingImageURL)
  else
    let wt2 := if wt.DeviceTemplateName = "" then
        { wt with DeviceTemplateName := "\x7b\x7b.device_1\x7d\x7d" }
      else wt
    match parseTemplate workflowTemplate with
    | none => (wt2, "", some RenderError.unableToParse)
    | some nodes =>
      match executeNodes wt2.lookup nodes with
      | none => (wt2, "", some RenderError.unableToExecute)
      | some out => (wt2, out, none)

/-- HardwareProvisionJob is a helper struct for rendering Rufio job data. -/
structure HardwareProvisionTasks where
  EFIBoot : Bool
deriving DecidableEq, Repr

/-- Field lookup on HardwareProvisionTasks; Go formats the boolean as
`true` / `false`. -/
def HardwareProvisionTasks.lookup (t : HardwareProvisionTasks) (f : String) : Option String :=
  if f = "EFIBoot" then some (if t.EFIBoot then "true" else "false") else none

/-- Render renders workflow template for a given machine including
user-data. -/
def HardwareProvisionTasks.Render (t : HardwareProvisionTasks) :
    String × Option RenderError :=
  match parseTemplate hardwareProvisionTasks with
  | none => ("", some RenderError.unableToParse)
  | some nodes =>
    match executeNodes t.lookup nodes with
    | none => ("", some RenderError.unableToExecute)
    | some out => (out, none)

/-- Literal text of `workflowTemplate` between field actions (segment 0). -/
def wfSeg0 : String :=
  "\nversion: \"0.1\"\nname: "

/-- Literal text of `workflowTemplate` between field actions (segment 1). -/
def wfSeg1 : String :=
  "\nglobal_timeout: 6000\ntasks:\n  - name: \""

/-- Literal text of `workflowTemplate` between field actions (segment 2). -/
def wfSeg2 : String :=
  "\"\n    worker: \""

/-- Literal text of `workflowTemplate` between field actions (segment 3). -/
def wfSeg3 : String :=
  "\"\n    volumes:\n      - /dev:/dev\n      - /dev/console:/dev/console\n      - /lib/firmware:/lib/firmware:ro\n    actions:\n      - name: \"stream-image\"\n        image: quay.io/tinkerbell-actions/image2disk:v1.0.0\n        timeout: 600\n        environment:\n          IMG_URL: "

/-- Literal text of `workflowTemplate` between field actions (segment 4). -/
def wfSeg4 : String :=
  "\n          DEST_DISK: "

/-- Literal text of `workflowTemplate` between field actions (segment 5). -/
def wfSeg5 : String :=
  "\n          COMPRESSED: true\n      - name: \"create-user\"\n        image: quay.io/tinkerbell-actions/cexec:v1.0.0\n        timeout: 90\n        environment:\n          BLOCK_DEVICE: "

/-- Literal text of `workflowTemplate` between field actions (segment 6). -/
def wfSeg6 : String :=
  "\n          FS_TYPE: ext4\n          CHROOT: y\n          DEFAULT_INTERPRETER: \"/bin/sh -c\"\n          CMD_LINE: \"useradd -p $(openssl passwd -1 tink) -s /bin/bash -d /home/tink/ -m -G sudo tink\"\n      - name: \"create-init-script\"\n        image: quay.io/tinkerbell-actions/writefile:v1.0.0\n        timeout: 90\n        environment:\n            DEST_DISK: "

/-- Literal text of `workflowTemplate` between field actions (segment 7). -/
def wfSeg7 : String :=
  "\n            FS_TYPE: ext4\n            DEST_PATH: /root/cluster-setup.sh\n            UID: 0\n            GID: 0\n            MODE: 0700\n            DIRMODE: 0700\n            CONTENTS: |\n              #!/bin/bash\n              tdnf install -y apparmor-parser apparmor-utils\n              iptables -I INPUT -p tcp --dport 6443 -j ACCEPT\n              rm /root/cluster-setup.sh\n      - name: \"create-init-script-service\"\n        image: quay.io/tinkerbell-actions/writefile:v1.0.0\n        timeout: 90\n        environment:\n            DEST_DISK: "

/-- Literal text of `workflowTemplate` between field actions (segment 8). -/
def wfSeg8 : String :=
  "\n            FS_TYPE: ext4\n            DEST_PATH: /usr/local/lib/systemd/system/cluster-setup.service\n            UID: 0\n            GID: 0\n            MODE: 0600\n            DIRMODE: 0600\n            CONTENTS: |\n              [Unit]\n              Before=systemd-user-sessions.service\n              Wants=network-online.target\n              After=network-online.target\n              ConditionPathExists=/root/cluster-setup.sh\n              [Service]\n              Type=oneshot\n              ExecStart=/root/cluster-setup.sh\n              RemainAfterExit=yes\n              [Install]\n              WantedBy=multi-user.target\n      - name: \"enable-init-script\"\n        image: quay.io/tinkerbell-actions/cexec:v1.0.0\n        timeout: 90\n        environment:\n            BLOCK_DEVICE: "

/-- Literal text of `workflowTemplate` between field actions (segment 9). -/
def wfSeg9 : String :=
  "\n            FS_TYPE: ext4\n            CHROOT: y\n            DEFAULT_INTERPRETER: \"/bin/sh -c\"\n            CMD_LINE: \"systemctl enable cluster-setup.service\"\n      - name: \"add-tink-cloud-init-config\"\n        image: quay.io/tinkerbell-actions/writefile:v1.0.0\n        timeout: 90\n        environment:\n          DEST_DISK: "

/-- Literal text of `workflowTemplate` between field actions (segment 10). -/
def wfSeg10 : String :=
  "\n          FS_TYPE: ext4\n          DEST_PATH: /etc/cloud/cloud.cfg.d/10_tinkerbell.cfg\n          UID: 0\n          GID: 0\n          MODE: 0600\n          DIRMODE: 0700\n          CONTENTS: |\n            datasource:\n              Ec2:\n                metadata_urls: [\""

/-- Literal text of `workflowTemplate` between field actions (segment 11). -/
def wfSeg11 : String :=
  "\"]\n                strict_id: false\n            system_info:\n              default_user:\n                name: tink\n                groups: [wheel, adm]\n                sudo: [\"ALL=(ALL) NOPASSWD:ALL\"]\n                shell: /bin/bash\n            manage_etc_hosts: localhost\n            warnings:\n              dsid_missing_source: off\n      - name: \"add-tink-cloud-init-ds-config\"\n        image: quay.io/tinkerbell-actions/writefile:v1.0.0\n        timeout: 90\n        environment:\n          DEST_DISK: "

/-- Literal text of `workflowTemplate` between field actions (segment 12). -/
def wfSeg12 : String :=
  "\n          FS_TYPE: ext4\n          DEST_PATH: /etc/cloud/ds-identify.cfg\n          UID: 0\n          GID: 0\n          MODE: 0600\n          DIRMODE: 0700\n          CONTENTS: |\n            datasource: Ec2\n      - name: \"kexec-image\"\n        image: quay.io/tinkerbell-actions/kexec:v1.0.0\n        timeout: 90\n        pid: host\n        environment:\n          BLOCK_DEVICE: "

/-- Literal text of `workflowTemplate` between field actions (segment 13). -/
def wfSeg13 : String :=
  "\n          FS_TYPE: ext4\n          KERNEL_PATH: /boot/vmlinuz-5.15.86.1-1.cm2\n          INITRD_PATH: /boot/initrd.img-5.15.86.1-1.cm2\n          CMD_LINE: \"root="

/-- Literal text of `workflowTemplate` between field actions (segment 14). -/
def wfSeg14 : String :=
  " rw\"\n"

/-- Literal text of `hardwareProvisionTasks` around the field action (segment 0). -/
def hwSeg0 : String :=
  "\n- powerAction: \"off\"\n- oneTimeBootDeviceAction:\n    device:\n    - pxe\n    efiBoot: "

/-- Literal text of `hardwareProvisionTasks` around the field action (segment 1). -/
def hwSeg1 : String :=
  "\n- powerAction: \"on\"\n"

/-- The parse of the fixed workflow template body. -/
def workflowNodes : List TemplateNode :=
  [TemplateNode.text wfSeg0,
   TemplateNode.field "Name",
   TemplateNode.text wfSeg1,
   TemplateNode.field "Name",
   TemplateNode.text wfSeg2,
   TemplateNode.field "DeviceTemplateName",
   TemplateNode.text wfSeg3,
   TemplateNode.field "ImageURL",
   TemplateNode.text wfSeg4,
   TemplateNode.field "DestDisk",
   TemplateNode.text wfSeg5,
   TemplateNode.field "DestPartition",
   TemplateNode.text wfSeg6,
   TemplateNode.field "DestPartition",
   TemplateNode.text wfSeg7,
   TemplateNode.field "DestPartition",
   TemplateNode.text wfSeg8,
   TemplateNode.field "DestPartition",
   TemplateNode.text wfSeg9,
   TemplateNode.field "DestPartition",
   TemplateNode.text wfSeg10,
   TemplateNode.field "MetadataURL",
   TemplateNode.text wfSeg11,
   TemplateNode.field "DestPartition",
   TemplateNode.text wfSeg12,
   TemplateNode.field "DestPartition",
   TemplateNode.text wfSeg13,
   TemplateNode.field "DestPartition",
   TemplateNode.text wfSeg14]

/-- The parse of the fixed hardware-provision template body. -/
def hardwareNodes : List TemplateNode :=
  [TemplateNode.text hwSeg0,
   TemplateNode.field "EFIBoot",
   TemplateNode.text hwSeg1]

/-- Parsing the fixed workflow template succeeds with the expected nodes. -/
theorem parseTemplate_workflow : parseTemplate workflowTemplate = some workflowNodes := by
  rfl

/-- Parsing the fixed hardware template succeeds with the expected nodes. -/
theorem parseTemplate_hardware : parseTemplate hardwareProvisionTasks = some hardwareNodes := by
  rfl

/-- Appending the empty string on the right is the identity. -/
theorem append_empty (s : String) : s ++ "" = s := by
  cases s with
  | mk data => show String.mk (data ++ []) = String.mk data; rw [List.append_nil]

/-- The character data of an appended string is the appended data. -/
theorem data_append (a b : String) : (a ++ b).data = a.data ++ b.data := by
  cases a; cases b; rfl

/-- The default fill applied to `DeviceTemplateName` by `Render` when the
field is empty. -/
def WorkflowTemplate.defaultFill (wt : WorkflowTemplate) : WorkflowTemplate :=
  if wt.DeviceTemplateName = "" then
    { wt with DeviceTemplateName := "\x7b\x7b.device_1\x7d\x7d" }
  else wt

/-- The output text of the workflow template as a function of the struct
fields: the fifteen literal segments interleaved with the fourteen field
substitutions, in template order. -/
def wfOutput (wt : WorkflowTemplate) : String :=
  wfSeg0 ++ (wt.Name ++ (wfSeg1 ++ (wt.Name ++ (wfSeg2 ++ (wt.DeviceTemplateName ++
  (wfSeg3 ++ (wt.ImageURL ++ (wfSeg4 ++ (wt.DestDisk ++ (wfSeg5 ++ (wt.DestPartition ++
  (wfSeg6 ++ (wt.DestPartition ++ (wfSeg7 ++ (wt.DestPartition ++ (wfSeg8 ++
  (wt.DestPartition ++ (wfSeg9 ++ (wt.DestPartition ++ (wfSeg10 ++ (wt.MetadataURL ++
  (wfSeg11 ++ (wt.DestPartition ++ (wfSeg12 ++ (wt.DestPartition ++ (wfSeg13 ++
  (wt.DestPartition ++ wfSeg14)))))))))))))))))))))))))))

/-- The output text of the hardware-provision template as a function of
the EFI flag. -/
def hwOutput (t : HardwareProvisionTasks) : String :=
  hwSeg0 ++ ((if t.EFIBoot then "true" else "false") ++ hwSeg1)

/-- Executing the parsed workflow nodes substitutes the fields of the
struct into the segment skeleton. -/
theorem executeNodes_workflow (wt : WorkflowTemplate) :
    executeNodes wt.lookup workflowNodes = some (wfOutput wt) := by
  simp [workflowNodes, executeNodes, WorkflowTemplate.lookup, wfOutput, append_empty]

/-- Executing the parsed hardware nodes substitutes the formatted flag
into the segment skeleton. -/
theorem executeNodes_hardware (t : HardwareProvisionTasks) :
    executeNodes t.lookup hardwareNodes = some (hwOutput t) := by
  simp [hardwareNodes, executeNodes, HardwareProvisionTasks.lookup, hwOutput, append_empty]

/-- A validated workflow render: when both required fields are present,
`Render` default-fills the device name, substitutes every field and
returns no error. -/
theorem render_ok (wt : WorkflowTemplate) (h1 : wt.Name ≠ "") (h2 : wt.ImageURL ≠ "") :
    wt.Render = (wt.defaultFill, wfOutput wt.defaultFill, none) := by
  rw [WorkflowTemplate.Render, if_neg h1, if_neg h2]
  show (match parseTemplate workflowTemplate with
    | none => (wt.defaultFill, "", some RenderError.unableToParse)
    | some nodes =>
      match executeNodes wt.defaultFill.lookup nodes with
      | none => (wt.defaultFill, "", some RenderError.unableToExecute)
      | some out => (wt.defaultFill, out, none)) = _
  rw [parseTemplate_workflow]
  show (match executeNodes wt.defaultFill.lookup workflowNodes with
    | none => (wt.defaultFill, "", some RenderError.unableToExecute)
    | some out => (wt.defaultFill, out, none)) = _
  rw [executeNodes_workflow]

/-- A hardware render always substitutes the flag and returns no error. -/
theorem hardware_render_eq (t : HardwareProvisionTasks) :
    t.Render = (hwOutput t, none) := by
  rw [HardwareProvisionTasks.Render, parseTemplate_hardware]
  show (match executeNodes t.lookup hardwareNodes with
    | none => ("", some RenderError.unableToExecute)
    | some out => (out, none)) = _
  rw [executeNodes_hardware]

/-- When the name is empty, Render short-circuits with the missing-name
sentinel, leaving the receiver untouched. -/
theorem render_missingName (wt : WorkflowTemplate) (h : wt.Name = "") :
    wt.Render = (wt, "", some RenderError.missingName) := by
  rw [WorkflowTemplate.Render, if_pos h]

/-- When the name is present but the image URL is empty, Render
short-circuits with the missing-image-URL sentinel, leaving the receiver
untouched. -/
theorem render_missingImageURL (wt : WorkflowTemplate) (h1 : wt.Name ≠ "")
    (h2 : wt.ImageURL = "") : wt.Render = (wt, "", some RenderError.missingImageURL) := by
  rw [WorkflowTemplate.Render, if_neg h1, if_pos h2]

/-- The default fill is the identity when the device name is nonempty. -/
theorem defaultFill_of_ne (wt : WorkflowTemplate) (h : wt.DeviceTemplateName ≠ "") :
    wt.defaultFill = wt := by
  rw [WorkflowTemplate.defaultFill, if_neg h]

/-- The default fill never touches the five other fields. -/
theorem defaultFill_fields (wt : WorkflowTemplate) :
    wt.defaultFill.Name = wt.Name ∧ wt.defaultFill.MetadataURL = wt.MetadataURL ∧
    wt.defaultFill.ImageURL = wt.ImageURL ∧ wt.defaultFill.DestDisk = wt.DestDisk ∧
    wt.defaultFill.DestPartition = wt.DestPartition := by
  rw [WorkflowTemplate.defaultFill]
  by_cases h : wt.DeviceTemplateName = "" <;> simp [h]

/-- When the device name is empty, the default fill writes the literal
placeholder. -/
theorem defaultFill_of_empty (wt : WorkflowTemplate) (h : wt.DeviceTemplateName = "") :
    wt.defaultFill.DeviceTemplateName = "\x7b\x7b.device_1\x7d\x7d" := by
  rw [WorkflowTemplate.defaultFill, if_pos h]

/-- C2: for every WorkflowTemplate with empty `Name`, `Render` returns
the missing-name error and empty output and leaves the object unchanged,
regardless of every other field; the check precedes all template work. -/
theorem renderMissingName_claim (wt : WorkflowTemplate) (h : wt.Name = "") :
    wt.Render = (wt, "", some RenderError.missingName) :=
  render_missingName wt h

theorem renderMissingName_witness :
    ((⟨"", "m", "i", "d", "p", "t"⟩ : WorkflowTemplate).Name = "") ∧
    (⟨"", "m", "i", "d", "p", "t"⟩ : WorkflowTemplate).Render =
      (⟨"", "m", "i", "d", "p", "t"⟩, "", some RenderError.missingName) :=
  ⟨rfl, renderMissingName_claim _ rfl⟩

/-- C3: for every WorkflowTemplate with nonempty `Name` and empty
`ImageURL`, `Render` returns the missing-image-URL error and empty
output; the check runs only after the name check passed. -/
theorem renderMissingImageURL_claim (wt : WorkflowTemplate) (h1 : wt.Name ≠ "")
    (h2 : wt.ImageURL = "") :
    wt.Render = (wt, "", some RenderError.missingImageURL) :=
  render_missingImageURL wt h1 h2

theorem renderMissingImageURL_witness :
    ((⟨"m1", "m", "", "d", "p", "t"⟩ : WorkflowTemplate).Name ≠ "") ∧
    ((⟨"m1", "m", "", "d", "p", "t"⟩ : WorkflowTemplate).ImageURL = "") ∧
    (⟨"m1", "m", "", "d", "p", "t"⟩ : WorkflowTemplate).Render =
      (⟨"m1", "m", "", "d", "p", "t"⟩, "", some RenderError.missingImageURL) :=
  ⟨by decide, rfl, renderMissingImageURL_claim _ (by decide) rfl⟩

/-- C4: a validation error leaves the object entirely unmutated; the five
non-device fields are never modified by any call; and the device field
changes only when both validations passed and it was empty, in which case
it becomes the literal placeholder. -/
theorem renderValidationNoMutation_claim :
    (∀ wt : WorkflowTemplate,
      (wt.Render).2.2 = some RenderError.missingName ∨
      (wt.Render).2.2 = some RenderError.missingImageURL → (wt.Render).1 = wt) ∧
    (∀ wt : WorkflowTemplate,
      (wt.Render).1.Name = wt.Name ∧ (wt.Render).1.MetadataURL = wt.MetadataURL ∧
      (wt.Render).1.ImageURL = wt.ImageURL ∧ (wt.Render).1.DestDisk = wt.DestDisk ∧
      (wt.Render).1.DestPartition = wt.DestPartition) ∧
    (∀ wt : WorkflowTemplate, (wt.Render).1.DeviceTemplateName ≠ wt.DeviceTemplateName →
      wt.Name ≠ "" ∧ wt.ImageURL ≠ "" ∧ wt.DeviceTemplateName = "" ∧
      (wt.Render).1.DeviceTemplateName = "\x7b\x7b.device_1\x7d\x7d") := by
  refine ⟨?_, ?_, ?_⟩
  · intro wt _
    by_cases h1 : wt.Name = ""
    · rw [render_missingName wt h1]
    · by_cases h2 : wt.ImageURL = ""
      · rw [render_missingImageURL wt h1 h2]
      · rw [render_ok wt h1 h2]
        by_cases h3 : wt.DeviceTemplateName = ""
        · rename_i herr
          rw [render_ok wt h1 h2] at herr
          simp at herr
        · exact defaultFill_of_ne wt h3
  · intro wt
    by_cases h1 : wt.Name = ""
    · rw [render_missingName wt h1]
      exact ⟨rfl, rfl, rfl, rfl, rfl⟩
    · by_cases h2 : wt.ImageURL = ""
      · rw [render_missingImageURL wt h1 h2]
        exact ⟨rfl, rfl, rfl, rfl, rfl⟩
      · rw [render_ok wt h1 h2]
        exact defaultFill_fields wt
  · intro wt hne
    by_cases h1 : wt.Name = ""
    · rw [render_missingName wt h1] at hne
      exact absurd rfl hne
    · by_cases h2 : wt.ImageURL = ""
      · rw [render_missingImageURL wt h1 h2] at hne
        exact absurd rfl hne
      · rw [render_ok wt h1 h2] at hne ⊢
        by_cases h3 : wt.DeviceTemplateName = ""
        · exact ⟨h1, h2, h3, defaultFill_of_empty wt h3⟩
        · rw [defaultFill_of_ne wt h3] at hne
          exact absurd rfl hne

theorem renderValidationNoMutation_witness :
    ((⟨"", "", "", "", "", ""⟩ : WorkflowTemplate).Render).1 = ⟨"", "", "", "", "", ""⟩ :=
  renderValidationNoMutation_claim.1 ⟨"", "", "", "", "", ""⟩ (Or.inl rfl)

/-- C7: on an already-defaulted object that passes validation, Render
does not mutate the object, and a second call returns the same result. -/
theorem renderIdempotent_claim (wt : WorkflowTemplate) (hd : wt.DeviceTemplateName ≠ "")
    (h1 : wt.Name ≠ "") (h2 : wt.ImageURL ≠ "") :
    (wt.Render).1 = wt ∧ ((wt.Render).1).Render = wt.Render := by
  have hr : wt.Render = (wt, wfOutput wt, none) := by
    rw [render_ok wt h1 h2, defaultFill_of_ne wt hd]
  refine ⟨by rw [hr], ?_⟩
  rw [hr]
  exact hr

theorem renderIdempotent_witness :
    (((⟨"m1", "mu", "iu", "dd", "dp", "w1"⟩ : WorkflowTemplate).Render).1 =
      ⟨"m1", "mu", "iu", "dd", "dp", "w1"⟩) ∧
    (((⟨"m1", "mu", "iu", "dd", "dp", "w1"⟩ : WorkflowTemplate).Render).1).Render =
      (⟨"m1", "mu", "iu", "dd", "dp", "w1"⟩ : WorkflowTemplate).Render :=
  renderIdempotent_claim _ (by decide) (by decide) (by decide)

/-- C9: both Render operations are pure functions of the field values:
objects with equal fields render to equal (state, output, error) results. -/
theorem renderDeterministic_claim :
    (∀ a b : WorkflowTemplate, a.Name = b.Name → a.MetadataURL = b.MetadataURL →
      a.ImageURL = b.ImageURL → a.DestDisk = b.DestDisk → a.DestPartition = b.DestPartition →
      a.DeviceTemplateName = b.DeviceTemplateName → a.Render = b.Render) ∧
    (∀ a b : HardwareProvisionTasks, a.EFIBoot = b.EFIBoot → a.Render = b.Render) := by
  constructor
  · intro a b e1 e2 e3 e4 e5 e6
    have : a = b := by cases a; cases b; simp_all
    rw [this]
  · intro a b e1
    have : a = b := by cases a; cases b; simp_all
    rw [this]

theorem renderDeterministic_witness :
    (⟨"m1", "mu", "iu", "dd", "dp", "w1"⟩ : WorkflowTemplate).Render =
      (⟨"m1", "mu", "iu", "dd", "dp", "w1"⟩ : WorkflowTemplate).Render ∧
    (⟨true⟩ : HardwareProvisionTasks).Render = (⟨true⟩ : HardwareProvisionTasks).Render :=
  ⟨renderDeterministic_claim.1 _ _ rfl rfl rfl rfl rfl rfl,
   renderDeterministic_claim.2 _ _ rfl⟩

/-- C10: validated inputs always render without error, and the only
errors WorkflowTemplate.Render ever returns are the two validation
sentinels. -/
theorem renderOnlyValidationErrors_claim :
    (∀ wt : WorkflowTemplate, wt.Name ≠ "" → wt.ImageURL ≠ "" → (wt.Render).2.2 = none) ∧
    (∀ (wt : WorkflowTemplate) (e : RenderError), (wt.Render).2.2 = some e →
      e = RenderError.missingName ∨ e = RenderError.missingImageURL) := by
  have hok : ∀ wt : WorkflowTemplate, wt.Name ≠ "" → wt.ImageURL ≠ "" →
      (wt.Render).2.2 = none := by
    intro wt h1 h2
    rw [render_ok wt h1 h2]
  refine ⟨hok, ?_⟩
  intro wt e he
  by_cases h1 : wt.Name = ""
  · rw [render_missingName wt h1] at he
    exact Or.inl (Option.some_injective _ he).symm
  · by_cases h2 : wt.ImageURL = ""
    · rw [render_missingImageURL wt h1 h2] at he
      exact Or.inr (Option.some_injective _ he).symm
    · rw [hok wt h1 h2] at he
      exact absurd he (Option.noConfusion)

theorem renderOnlyValidationErrors_witness :
    (((⟨"m1", "mu", "iu", "dd", "dp", "w1"⟩ : WorkflowTemplate).Render).2.2 = none) :=
  renderOnlyValidationErrors_claim.1 _ (by decide) (by decide)

/-- Boolean test that `n` is a prefix of `h`, character by character. -/
def isPrefixList : List Char → List Char → Bool
  | [], _ => true
  | _ :: _, [] => false
  | a :: as, b :: bs => a == b && isPrefixList as bs

/-- Boolean substring scan: does the needle occur in the haystack? -/
def containsAux (needle : List Char) : List Char → Bool
  | [] => isPrefixList needle []
  | c :: rest => isPrefixList needle (c :: rest) || containsAux needle rest

def containsB (needle hay : String) : Bool := containsAux needle.data hay.data

/-- The needle occurs verbatim somewhere in the haystack. -/
def strContains (needle hay : String) : Prop :=
  ∃ x y, hay.data = x ++ (needle.data ++ y)

theorem isPrefixList_sound {n h : List Char} (hp : isPrefixList n h = true) :
    ∃ t, h = n ++ t := by
  induction n generalizing h with
  | nil => exact ⟨h, rfl⟩
  | cons a as ih =>
    cases h with
    | nil => simp [isPrefixList] at hp
    | cons b bs =>
      rw [isPrefixList, Bool.and_eq_true, beq_iff_eq] at hp
      obtain ⟨t, ht⟩ := ih hp.2
      exact ⟨t, by rw [ht, hp.1]; rfl⟩

theorem containsAux_sound {n l : List Char} (hc : containsAux n l = true) :
    ∃ x y, l = x ++ (n ++ y) := by
  induction l with
  | nil =>
    cases n with
    | nil => exact ⟨[], [], rfl⟩
    | cons a as => rw [containsAux, isPrefixList] at hc; exact absurd hc (by simp)
  | cons c rest ih =>
    rw [containsAux, Bool.or_eq_true] at hc
    rcases hc with hp | hr
    · obtain ⟨t, ht⟩ := isPrefixList_sound hp
      exact ⟨[], t, by rw [ht]; rfl⟩
    · obtain ⟨x, y, hxy⟩ := ih hr
      exact ⟨c :: x, y, by rw [List.cons_append, hxy]⟩

/-- A successful Boolean scan certifies occurrence. -/
theorem containsB_sound {n h : String} (hc : containsB n h = true) : strContains n h :=
  containsAux_sound hc

/-- The tail of segment 3 after its leading double quote. -/
def wfSeg3tail : String :=
  "\n    volumes:\n      - /dev:/dev\n      - /dev/console:/dev/console\n      - /lib/firmware:/lib/firmware:ro\n    actions:\n      - name: \"stream-image\"\n        image: quay.io/tinkerbell-actions/image2disk:v1.0.0\n        timeout: 600\n        environment:\n          IMG_URL: "

theorem wfSeg2_split : wfSeg2.data = "\"\n    ".data ++ "worker: \"".data := by rfl

theorem wfSeg3_split : wfSeg3.data = "\"".data ++ wfSeg3tail.data := by rfl

theorem workerNeedle_split :
    "worker: \"\x7b\x7b.device_1\x7d\x7d\"".data =
      "worker: \"".data ++ ("\x7b\x7b.device_1\x7d\x7d".data ++ "\"".data) := by rfl

/-- C1: with both required fields present and an empty device name,
Render sets `DeviceTemplateName` to the literal placeholder before
substitution, and that literal appears verbatim in the output at the
worker field. -/
theorem renderDeviceDefault_claim (wt : WorkflowTemplate) (h1 : wt.Name ≠ "")
    (h2 : wt.ImageURL ≠ "") (h3 : wt.DeviceTemplateName = "") :
    (wt.Render).1.DeviceTemplateName = "\x7b\x7b.device_1\x7d\x7d" ∧
    strContains "worker: \"\x7b\x7b.device_1\x7d\x7d\"" (wt.Render).2.1 := by
  rw [render_ok wt h1 h2]
  refine ⟨defaultFill_of_empty wt h3, ?_⟩
  show strContains _ (wfOutput wt.defaultFill)
  refine ⟨wfSeg0.data ++ (wt.defaultFill.Name.data ++ (wfSeg1.data ++ (wt.defaultFill.Name.data ++ ("\"\n    ".data)))),
    wfSeg3tail.data ++ (wt.defaultFill.ImageURL.data ++ (wfSeg4.data ++ (wt.defaultFill.DestDisk.data ++ (wfSeg5.data ++ (wt.defaultFill.DestPartition.data ++ (wfSeg6.data ++ (wt.defaultFill.DestPartition.data ++ (wfSeg7.data ++ (wt.defaultFill.DestPartition.data ++ (wfSeg8.data ++ (wt.defaultFill.DestPartition.data ++ (wfSeg9.data ++ (wt.defaultFill.DestPartition.data ++ (wfSeg10.data ++ (wt.defaultFill.MetadataURL.data ++ (wfSeg11.data ++ (wt.defaultFill.DestPartition.data ++ (wfSeg12.data ++ (wt.defaultFill.DestPartition.data ++ (wfSeg13.data ++ (wt.defaultFill.DestPartition.data ++ (wfSeg14.data)))))))))))))))))))))),
    ?_⟩
  rw [wfOutput, defaultFill_of_empty wt h3]
  simp only [data_append, wfSeg2_split, wfSeg3_split, workerNeedle_split, List.append_assoc,
    List.cons_append, List.nil_append]

theorem renderDeviceDefault_witness :
    (((⟨"m1", "mu", "iu", "dd", "dp", ""⟩ : WorkflowTemplate).Name ≠ "") ∧
     ((⟨"m1", "mu", "iu", "dd", "dp", ""⟩ : WorkflowTemplate).ImageURL ≠ "") ∧
     ((⟨"m1", "mu", "iu", "dd", "dp", ""⟩ : WorkflowTemplate).DeviceTemplateName = "")) ∧
    ((((⟨"m1", "mu", "iu", "dd", "dp", ""⟩ : WorkflowTemplate).Render).1.DeviceTemplateName =
        "\x7b\x7b.device_1\x7d\x7d") ∧
      strContains "worker: \"\x7b\x7b.device_1\x7d\x7d\""
        (((⟨"m1", "mu", "iu", "dd", "dp", ""⟩ : WorkflowTemplate).Render).2.1)) :=
  ⟨⟨by decide, by decide, rfl⟩,
   renderDeviceDefault_claim _ (by decide) (by decide) rfl⟩

def newlineChar : Char := Char.ofNat 10

/-- Split a character list into lines at newline characters. -/
def splitLinesAux : List Char → List (List Char) → List Char → List (List Char)
  | cur, acc, [] => (cur.reverse :: acc).reverse
  | cur, acc, c :: rest =>
    if c == newlineChar then splitLinesAux [] (cur.reverse :: acc) rest
    else splitLinesAux (c :: cur) acc rest

def splitLines (s : String) : List String :=
  (splitLinesAux [] [] s.data).map String.mk

/-- The top-level YAML sequence items of a rendered text: its lines that
start with a dash item marker at column zero. -/
def stepLines (s : String) : List String :=
  (splitLines s).filter (fun l => isPrefixList "- ".data l.data)

/-- The action entries of a rendered workflow: its lines that start an
action object (six-space indented name key), in output order. -/
def actionHeaderLines (s : String) : List String :=
  (splitLines s).filter (fun l => isPrefixList "      - name: \"".data l.data)

/-- C6: every HardwareProvisionTasks value renders without error; the
output is the fixed skeleton around the formatted flag (so the structure
is identical for both flag values), contains the matching `efiBoot:`
text, and its top-level sequence is exactly the three steps power off,
one-time PXE boot-device action, power on, in order. -/
theorem hardwareRender_claim : ∀ t : HardwareProvisionTasks,
    (t.Render).2 = none ∧
    (t.Render).1 = hwSeg0 ++ ((if t.EFIBoot then "true" else "false") ++ hwSeg1) ∧
    strContains (if t.EFIBoot then "efiBoot: true" else "efiBoot: false") (t.Render).1 ∧
    stepLines (t.Render).1 =
      ["- powerAction: \"off\"", "- oneTimeBootDeviceAction:", "- powerAction: \"on\""] := by
  intro t
  cases t with
  | mk b =>
    cases b
    · rw [hardware_render_eq ⟨false⟩]
      exact ⟨rfl, rfl, containsB_sound (by rfl), by rfl⟩
    · rw [hardware_render_eq ⟨true⟩]
      exact ⟨rfl, rfl, containsB_sound (by rfl), by rfl⟩

/-- The concrete example machine of the specification. -/
def exampleWT : WorkflowTemplate :=
  ⟨"m1", "http://meta", "http://x/img", "/dev/sda", "/dev/sda1", "worker-1"⟩

/-- Segment 0 up to the name key. -/
def wfSeg0head : String :=
  "\nversion: \"0.1\"\n"

/-- Segment 1 after the global-timeout line. -/
def wfSeg1tail : String :=
  "\ntasks:\n  - name: \""

/-- Segment 3 up to the image-URL key. -/
def wfSeg3head : String :=
  "\"\n    volumes:\n      - /dev:/dev\n      - /dev/console:/dev/console\n      - /lib/firmware:/lib/firmware:ro\n    actions:\n      - name: \"stream-image\"\n        image: quay.io/tinkerbell-actions/image2disk:v1.0.0\n        timeout: 600\n        environment:\n          "

/-- Segment 4 up to the dest-disk key. -/
def wfSeg4head : String :=
  "\n          "

/-- Segment 5 up to the block-device key. -/
def wfSeg5head : String :=
  "\n          COMPRESSED: true\n      - name: \"create-user\"\n        image: quay.io/tinkerbell-actions/cexec:v1.0.0\n        timeout: 90\n        environment:\n          "

/-- Segment 10 up to the metadata-urls key. -/
def wfSeg10head : String :=
  "\n          FS_TYPE: ext4\n          DEST_PATH: /etc/cloud/cloud.cfg.d/10_tinkerbell.cfg\n          UID: 0\n          GID: 0\n          MODE: 0600\n          DIRMODE: 0700\n          CONTENTS: |\n            datasource:\n              Ec2:\n                "

/-- Segment 11 after the closing bracket of metadata-urls. -/
def wfSeg11tail : String :=
  "\n                strict_id: false\n            system_info:\n              default_user:\n                name: tink\n                groups: [wheel, adm]\n                sudo: [\"ALL=(ALL) NOPASSWD:ALL\"]\n                shell: /bin/bash\n            manage_etc_hosts: localhost\n            warnings:\n              dsid_missing_source: off\n      - name: \"add-tink-cloud-init-ds-config\"\n        image: quay.io/tinkerbell-actions/writefile:v1.0.0\n        timeout: 90\n        environment:\n          DEST_DISK: "

theorem wfSeg0_headSplit : wfSeg0.data = wfSeg0head.data ++ "name: ".data := by rfl

theorem wfSeg1_split3 : wfSeg1.data = "\n".data ++ ("global_timeout: 6000".data ++ wfSeg1tail.data) := by rfl

theorem wfSeg3_headSplit : wfSeg3.data = wfSeg3head.data ++ "IMG_URL: ".data := by rfl

theorem wfSeg4_headSplit : wfSeg4.data = wfSeg4head.data ++ "DEST_DISK: ".data := by rfl

theorem wfSeg5_headSplit : wfSeg5.data = wfSeg5head.data ++ "BLOCK_DEVICE: ".data := by rfl

theorem wfSeg10_headSplit : wfSeg10.data = wfSeg10head.data ++ "metadata_urls: [\"".data := by rfl

theorem wfSeg11_split : wfSeg11.data = "\"]".data ++ wfSeg11tail.data := by rfl

theorem nameNeedle_split : "name: m1".data = "name: ".data ++ "m1".data := by rfl

theorem workerValNeedle_split : "worker: \"worker-1\"".data = "worker: \"".data ++ ("worker-1".data ++ "\"".data) := by rfl

theorem imgurlNeedle_split : "IMG_URL: http://x/img".data = "IMG_URL: ".data ++ "http://x/img".data := by rfl

theorem destdiskNeedle_split : "DEST_DISK: /dev/sda".data = "DEST_DISK: ".data ++ "/dev/sda".data := by rfl

theorem blockdevNeedle_split : "BLOCK_DEVICE: /dev/sda1".data = "BLOCK_DEVICE: ".data ++ "/dev/sda1".data := by rfl

theorem metadataNeedle_split : "metadata_urls: [\"http://meta\"]".data = "metadata_urls: [\"".data ++ ("http://meta".data ++ "\"]".data) := by rfl

/-- The name key with the example name occurs in the example output. -/
theorem containsNameExample : strContains "name: m1" (wfOutput exampleWT) := by
  refine ⟨wfSeg0head.data,
    wfSeg1.data ++ ("m1".data ++ (wfSeg2.data ++ ("worker-1".data ++ (wfSeg3.data ++ ("http://x/img".data ++ (wfSeg4.data ++ ("/dev/sda".data ++ (wfSeg5.data ++ ("/dev/sda1".data ++ (wfSeg6.data ++ ("/dev/sda1".data ++ (wfSeg7.data ++ ("/dev/sda1".data ++ (wfSeg8.data ++ ("/dev/sda1".data ++ (wfSeg9.data ++ ("/dev/sda1".data ++ (wfSeg10.data ++ ("http://meta".data ++ (wfSeg11.data ++ ("/dev/sda1".data ++ (wfSeg12.data ++ ("/dev/sda1".data ++ (wfSeg13.data ++ ("/dev/sda1".data ++ (wfSeg14.data)))))))))))))))))))))))))), ?_⟩
  rw [wfOutput]
  simp only [exampleWT, wfSeg0_headSplit, nameNeedle_split, data_append, List.append_assoc,
    List.cons_append, List.nil_append]

/-- The global timeout line occurs in the example output. -/
theorem containsTimeoutExample : strContains "global_timeout: 6000" (wfOutput exampleWT) := by
  refine ⟨wfSeg0.data ++ ("m1".data ++ ("\n".data)),
    wfSeg1tail.data ++ ("m1".data ++ (wfSeg2.data ++ ("worker-1".data ++ (wfSeg3.data ++ ("http://x/img".data ++ (wfSeg4.data ++ ("/dev/sda".data ++ (wfSeg5.data ++ ("/dev/sda1".data ++ (wfSeg6.data ++ ("/dev/sda1".data ++ (wfSeg7.data ++ ("/dev/sda1".data ++ (wfSeg8.data ++ ("/dev/sda1".data ++ (wfSeg9.data ++ ("/dev/sda1".data ++ (wfSeg10.data ++ ("http://meta".data ++ (wfSeg11.data ++ ("/dev/sda1".data ++ (wfSeg12.data ++ ("/dev/sda1".data ++ (wfSeg13.data ++ ("/dev/sda1".data ++ (wfSeg14.data)))))))))))))))))))))))))), ?_⟩
  rw [wfOutput]
  simp only [exampleWT, wfSeg1_split3, data_append, List.append_assoc,
    List.cons_append, List.nil_append]

/-- The worker field with the example device name occurs in the example output. -/
theorem containsWorkerExample : strContains "worker: \"worker-1\"" (wfOutput exampleWT) := by
  refine ⟨wfSeg0.data ++ ("m1".data ++ (wfSeg1.data ++ ("m1".data ++ ("\"\n    ".data)))),
    wfSeg3tail.data ++ ("http://x/img".data ++ (wfSeg4.data ++ ("/dev/sda".data ++ (wfSeg5.data ++ ("/dev/sda1".data ++ (wfSeg6.data ++ ("/dev/sda1".data ++ (wfSeg7.data ++ ("/dev/sda1".data ++ (wfSeg8.data ++ ("/dev/sda1".data ++ (wfSeg9.data ++ ("/dev/sda1".data ++ (wfSeg10.data ++ ("http://meta".data ++ (wfSeg11.data ++ ("/dev/sda1".data ++ (wfSeg12.data ++ ("/dev/sda1".data ++ (wfSeg13.data ++ ("/dev/sda1".data ++ (wfSeg14.data)))))))))))))))))))))), ?_⟩
  rw [wfOutput]
  simp only [exampleWT, wfSeg2_split, wfSeg3_split, workerValNeedle_split, data_append, List.append_assoc,
    List.cons_append, List.nil_append]

/-- The image URL environment entry occurs in the example output. -/
theorem containsImgURLExample : strContains "IMG_URL: http://x/img" (wfOutput exampleWT) := by
  refine ⟨wfSeg0.data ++ ("m1".data ++ (wfSeg1.data ++ ("m1".data ++ (wfSeg2.data ++ ("worker-1".data ++ (wfSeg3head.data)))))),
    wfSeg4.data ++ ("/dev/sda".data ++ (wfSeg5.data ++ ("/dev/sda1".data ++ (wfSeg6.data ++ ("/dev/sda1".data ++ (wfSeg7.data ++ ("/dev/sda1".data ++ (wfSeg8.data ++ ("/dev/sda1".data ++ (wfSeg9.data ++ ("/dev/sda1".data ++ (wfSeg10.data ++ ("http://meta".data ++ (wfSeg11.data ++ ("/dev/sda1".data ++ (wfSeg12.data ++ ("/dev/sda1".data ++ (wfSeg13.data ++ ("/dev/sda1".data ++ (wfSeg14.data)))))))))))))))))))), ?_⟩
  rw [wfOutput]
  simp only [exampleWT, wfSeg3_headSplit, imgurlNeedle_split, data_append, List.append_assoc,
    List.cons_append, List.nil_append]

/-- The dest-disk environment entry occurs in the example output. -/
theorem containsDestDiskExample : strContains "DEST_DISK: /dev/sda" (wfOutput exampleWT) := by
  refine ⟨wfSeg0.data ++ ("m1".data ++ (wfSeg1.data ++ ("m1".data ++ (wfSeg2.data ++ ("worker-1".data ++ (wfSeg3.data ++ ("http://x/img".data ++ (wfSeg4head.data)))))))),
    wfSeg5.data ++ ("/dev/sda1".data ++ (wfSeg6.data ++ ("/dev/sda1".data ++ (wfSeg7.data ++ ("/dev/sda1".data ++ (wfSeg8.data ++ ("/dev/sda1".data ++ (wfSeg9.data ++ ("/dev/sda1".data ++ (wfSeg10.data ++ ("http://meta".data ++ (wfSeg11.data ++ ("/dev/sda1".data ++ (wfSeg12.data ++ ("/dev/sda1".data ++ (wfSeg13.data ++ ("/dev/sda1".data ++ (wfSeg14.data)))))))))))))))))), ?_⟩
  rw [wfOutput]
  simp only [exampleWT, wfSeg4_headSplit, destdiskNeedle_split, data_append, List.append_assoc,
    List.cons_append, List.nil_append]

/-- The block-device environment entry occurs in the example output. -/
theorem containsBlockDevExample : strContains "BLOCK_DEVICE: /dev/sda1" (wfOutput exampleWT) := by
  refine ⟨wfSeg0.data ++ ("m1".data ++ (wfSeg1.data ++ ("m1".data ++ (wfSeg2.data ++ ("worker-1".data ++ (wfSeg3.data ++ ("http://x/img".data ++ (wfSeg4.data ++ ("/dev/sda".data ++ (wfSeg5head.data)))))))))),
    wfSeg6.data ++ ("/dev/sda1".data ++ (wfSeg7.data ++ ("/dev/sda1".data ++ (wfSeg8.data ++ ("/dev/sda1".data ++ (wfSeg9.data ++ ("/dev/sda1".data ++ (wfSeg10.data ++ ("http://meta".data ++ (wfSeg11.data ++ ("/dev/sda1".data ++ (wfSeg12.data ++ ("/dev/sda1".data ++ (wfSeg13.data ++ ("/dev/sda1".data ++ (wfSeg14.data)))))))))))))))), ?_⟩
  rw [wfOutput]
  simp only [exampleWT, wfSeg5_headSplit, blockdevNeedle_split, data_append, List.append_assoc,
    List.cons_append, List.nil_append]

/-- The metadata-urls datasource entry occurs in the example output. -/
theorem containsMetadataExample : strContains "metadata_urls: [\"http://meta\"]" (wfOutput exampleWT) := by
  refine ⟨wfSeg0.data ++ ("m1".data ++ (wfSeg1.data ++ ("m1".data ++ (wfSeg2.data ++ ("worker-1".data ++ (wfSeg3.data ++ ("http://x/img".data ++ (wfSeg4.data ++ ("/dev/sda".data ++ (wfSeg5.data ++ ("/dev/sda1".data ++ (wfSeg6.data ++ ("/dev/sda1".data ++ (wfSeg7.data ++ ("/dev/sda1".data ++ (wfSeg8.data ++ ("/dev/sda1".data ++ (wfSeg9.data ++ ("/dev/sda1".data ++ (wfSeg10head.data)))))))))))))))))))),
    wfSeg11tail.data ++ ("/dev/sda1".data ++ (wfSeg12.data ++ ("/dev/sda1".data ++ (wfSeg13.data ++ ("/dev/sda1".data ++ (wfSeg14.data)))))), ?_⟩
  rw [wfOutput]
  simp only [exampleWT, wfSeg10_headSplit, wfSeg11_split, metadataNeedle_split, data_append, List.append_assoc,
    List.cons_append, List.nil_append]

/-- The example output has exactly the eight action entries in the fixed
order. -/
theorem actionHeaderExample : actionHeaderLines (wfOutput exampleWT) =
    ["      - name: \"stream-image\"",
     "      - name: \"create-user\"",
     "      - name: \"create-init-script\"",
     "      - name: \"create-init-script-service\"",
     "      - name: \"enable-init-script\"",
     "      - name: \"add-tink-cloud-init-config\"",
     "      - name: \"add-tink-cloud-init-ds-config\"",
     "      - name: \"kexec-image\""] := by
  rfl

/-- C5: for the example machine, Render succeeds and the output carries
every substituted field at its template position, the 6000-second global
timeout, and exactly the eight actions in the fixed order. -/
theorem workflowExample_claim :
    ((exampleWT.Render).2.2 = none) ∧
    strContains "name: m1" (exampleWT.Render).2.1 ∧
    strContains "worker: \"worker-1\"" (exampleWT.Render).2.1 ∧
    strContains "IMG_URL: http://x/img" (exampleWT.Render).2.1 ∧
    strContains "DEST_DISK: /dev/sda" (exampleWT.Render).2.1 ∧
    strContains "BLOCK_DEVICE: /dev/sda1" (exampleWT.Render).2.1 ∧
    strContains "metadata_urls: [\"http://meta\"]" (exampleWT.Render).2.1 ∧
    strContains "global_timeout: 6000" (exampleWT.Render).2.1 ∧
    actionHeaderLines (exampleWT.Render).2.1 =
      ["      - name: \"stream-image\"",
       "      - name: \"create-user\"",
       "      - name: \"create-init-script\"",
       "      - name: \"create-init-script-service\"",
       "      - name: \"enable-init-script\"",
       "      - name: \"add-tink-cloud-init-config\"",
       "      - name: \"add-tink-cloud-init-ds-config\"",
       "      - name: \"kexec-image\""] := by
  have hr : exampleWT.Render = (exampleWT, wfOutput exampleWT, none) := by
    rw [render_ok exampleWT (by decide) (by decide), defaultFill_of_ne exampleWT (by decide)]
  rw [hr]
  exact ⟨rfl, containsNameExample, containsWorkerExample, containsImgURLExample,
    containsDestDiskExample, containsBlockDevExample, containsMetadataExample,
    containsTimeoutExample, actionHeaderExample⟩

end Templates
